import Mathlib

/-!
Verification of the stellar-interior numerical model (`estrella.py` and its
helper modules) against its natural-language specification.

The Python sources are embedded shallowly:
  * pure arithmetic on floats is idealized as exact arithmetic over `ℚ`
    (where only field operations occur) or over `ℝ` (where fractional powers
    such as `T**2.5` occur, modelled with `Real.rpow`);
  * `while` loops without a termination guarantee become fuel-indexed
    recursions (`Option`-valued, or returning a `running` marker);
  * Python runtime errors (`ZeroDivisionError`, `UnboundLocalError`) become
    explicit error values;
  * the inner predictor-corrector convergence loops, whose numeric output is
    irrelevant to the control-flow properties proved here, are abstracted as
    oracle parameters supplying the values they would compute, while the
    control flow surrounding them (radius bookkeeping, exit tests, buffer
    trimming, the threading of the polytropic constant) is translated
    literally from the source.
Namespaces mirror the Python module names.
-/

/-- Energy-generation cycle label: `'PP'`, `'CN'` or `'--'` in the Python
sources. -/
inductive CycleLabel
  | PP
  | CN
  | NONE
deriving DecidableEq

/-- Transport-mode label: `'CONVECTIVO'` or `'RADIATIVO'` in `estrella.py`
lines 573-574. -/
inductive TransportMode
  | CONVECTIVO
  | RADIATIVO
deriving DecidableEq

/-- Python runtime error relevant to the embedded fragments. -/
inductive PyErr
  | zeroDiv
deriving DecidableEq

namespace energia

/-- Proton-proton coefficient table of `energia.ciclo` (lines 31-48): the
pair `(E1_pp, nu_pp)` selected by the chained `elif` on the temperature. -/
noncomputable def E1nu_pp (T_i : ℝ) : ℝ × ℚ :=
  if 0.4 < T_i ∧ T_i ≤ 0.6 then ((10 : ℝ) ^ (-6.84 : ℝ), 6)
  else if 0.6 < T_i ∧ T_i ≤ 0.95 then ((10 : ℝ) ^ (-6.04 : ℝ), 5)
  else if 0.95 < T_i ∧ T_i ≤ 1.2 then ((10 : ℝ) ^ (-5.56 : ℝ), 9/2)
  else if 1.2 < T_i ∧ T_i ≤ 1.65 then ((10 : ℝ) ^ (-5.02 : ℝ), 4)
  else if 1.65 < T_i ∧ T_i ≤ 2.4 then ((10 : ℝ) ^ (-4.40 : ℝ), 7/2)
  else (0, 0)

/-- CN coefficient table of `energia.ciclo` (lines 54-71). -/
noncomputable def E1nu_CN (T_i : ℝ) : ℝ × ℚ :=
  if 1.2 < T_i ∧ T_i ≤ 1.6 then ((10 : ℝ) ^ (-22.2 : ℝ), 20)
  else if 1.6 < T_i ∧ T_i ≤ 2.25 then ((10 : ℝ) ^ (-19.8 : ℝ), 18)
  else if 2.25 < T_i ∧ T_i ≤ 2.75 then ((10 : ℝ) ^ (-17.1 : ℝ), 16)
  else if 2.75 < T_i ∧ T_i ≤ 3.60 then ((10 : ℝ) ^ (-15.6 : ℝ), 15)
  else if 3.60 < T_i ∧ T_i ≤ 5.0 then ((10 : ℝ) ^ (-12.5 : ℝ), 13)
  else (0, 0)

/-- Proton-proton rate (line 51): `E_pp = E1_pp * X**2 * (10*T_i)**nu_pp`. -/
noncomputable def E_pp (T_i X : ℝ) : ℝ :=
  (E1nu_pp T_i).1 * X ^ 2 * (10 * T_i) ^ (((E1nu_pp T_i).2 : ℝ))

/-- CN rate (lines 74-75):
`E_CN = (1/3) * E1_CN * X * Z * (10*T_i)**nu_CN` with `Z = 1 - X - Y`. -/
noncomputable def E_CN (T_i X Y : ℝ) : ℝ :=
  (1/3) * (E1nu_CN T_i).1 * X * (1 - X - Y) * (10 * T_i) ^ (((E1nu_CN T_i).2 : ℝ))

/-- Dominant-cycle selection of `energia.ciclo` (lines 80-92): the larger
rate wins; on an exact tie the label is `'--'` with coefficients `(0, 0)`. -/
noncomputable def ciclo (T_i X Y : ℝ) : CycleLabel × ℝ × ℚ :=
  if E_pp T_i X > E_CN T_i X Y then (CycleLabel.PP, E1nu_pp T_i)
  else if E_pp T_i X < E_CN T_i X Y then (CycleLabel.CN, E1nu_CN T_i)
  else (CycleLabel.NONE, 0, 0)

end energia

namespace politropo

/-- Polytropic constant (`politropo.cte_k`): `k_prima = P_i1 / T_i1**2.5`. -/
noncomputable def cte_k (P_i1 T_i1 : ℝ) : ℝ := P_i1 / T_i1 ^ (2.5 : ℝ)

/-- Polytropic pressure (`politropo.presion`): `0` if `T_i1 <= 0`,
else `k * T_i1**2.5`. -/
noncomputable def presion (T_i1 k : ℝ) : ℝ :=
  if T_i1 ≤ 0 then 0 else k * T_i1 ^ (2.5 : ℝ)

end politropo

namespace transporte

/-- Transport criterion parameter (`transporte.n_mas_1`):
`(T_i1/P_i1) * (dP_i1/dT_i1)`. -/
def n_mas_1 (P_i1 T_i1 dP_i1 dT_i1 : ℚ) : ℚ := (T_i1 / P_i1) * (dP_i1 / dT_i1)

end transporte

namespace primera_derivada

/-- Python float power as evaluated at `primera_derivada.py` line 136
(`T_i**(nu-2)`): raising `0.0` to a negative exponent raises
`ZeroDivisionError` in Python; otherwise the result agrees with the real
power (every evaluation performed by the model has a nonnegative base, so
the negative-base case of Python `**` never arises). -/
noncomputable def pyPow (b : ℝ) (e : ℚ) : Except PyErr ℝ :=
  if b = 0 ∧ e < 0 then Except.error PyErr.zeroDiv else Except.ok (b ^ (e : ℝ))

/-- First derivative of the luminosity (`primera_derivada.luminosidad`,
lines 100-137): for `L_cte` the derivative is `0` with label `'--'`;
otherwise the dominant cycle is computed, the mass fractions `X1`, `X2`
chosen by its label, and
`dL_i = 0.01845 * E1 * (X1*X2) * 10**nu * mu**2 * P_i**2 * T_i**(nu-2) * r_i**2`,
where the power `T_i**(nu-2)` can raise `ZeroDivisionError`. -/
noncomputable def luminosidad (r_i P_i T_i mu X Y : ℝ) (L_cte : Bool) :
    Except PyErr (ℝ × CycleLabel) :=
  if L_cte then Except.ok (0, CycleLabel.NONE)
  else
    let c := (energia.ciclo T_i X Y).1
    let E1 := (energia.ciclo T_i X Y).2.1
    let nu := (energia.ciclo T_i X Y).2.2
    let X1 : ℝ := if c = CycleLabel.PP then X else if c = CycleLabel.CN then X else 0
    let X2 : ℝ := if c = CycleLabel.PP then X
      else if c = CycleLabel.CN then (1/3) * (1 - X - Y) else 0
    (pyPow T_i (nu - 2)).map fun tp =>
      (0.01845 * E1 * (X1 * X2) * (10 : ℝ) ^ ((nu : ℝ)) * mu ^ 2 * P_i ^ 2
        * tp * r_i ^ 2, c)

end primera_derivada

namespace faseB

/-- Radius bookkeeping of Phase B's layer loop (`faseB.py` lines 110-159):
each step proposes radius `r_i1 = h*(i+1)`; if `r_i1 > rf + h` the loop
stops (boundary passed, layer rejected), otherwise the layer is accepted
with exactly that radius and `i` advances.  The predictor-corrector body is
irrelevant to the recorded radii and is omitted; `fuel` bounds the
unbounded `while`. -/
def loopBRadii (h rf : ℚ) : ℕ → ℕ → List ℚ → List ℚ
  | 0, _, acc => acc
  | fuel + 1, i, acc =>
    if rf + h < h * ((i : ℚ) + 1) then acc
    else loopBRadii h rf fuel (i + 1) (acc ++ [h * ((i : ℚ) + 1)])

/-- Accepted radii of one Phase B run: the three seed layers at
`r_i = h*i`, `i = 0,1,2` (`faseB.py` line 84), followed by the layer loop
starting at `i = 2`. -/
def faseBRadii (h rf : ℚ) (fuel : ℕ) : List ℚ :=
  loopBRadii h rf fuel 2 ((List.range 3).map fun i : ℕ => h * (i : ℚ))

end faseB

namespace estrella

/-- Values the predictor-corrector of regime A.1.3 produces for one trial
layer: `P_cal`, `T_cal` and the derivatives `dP_i1`, `dT_i1` at that layer
(the convergence loops computing them are abstracted as an oracle indexed by
the number of layers the regime has accepted so far). -/
structure A13Vals where
  P_cal : ℚ
  T_cal : ℚ
  dP_i1 : ℚ
  dT_i1 : ℚ

/-- Parameter `n+1` of the trial layer computed at step `j` of regime A.1.3
(`estrella.py` line 360). -/
def a13_n1 (body : ℕ → A13Vals) (j : ℕ) : ℚ :=
  transporte.n_mas_1 (body j).P_cal (body j).T_cal (body j).dP_i1 (body j).dT_i1

/-- Stored previous value `n_mas_1[i]` seen at step `j`: the `n_mas_1` array
is freshly zero-initialized when regime A.1.3 starts, and `n_mas_1[i+1]` is
written at every step (accepted or not), so step `0` compares against `0` and
step `j+1` compares against the value computed at step `j`. -/
def a13_prev (body : ℕ → A13Vals) : ℕ → ℚ
  | 0 => 0
  | j + 1 => a13_n1 body j

/-- Layer loop of regime A.1.3 (`estrella.py` lines 315-378) reduced to its
exit decision: at each step the trial layer's `n+1` is computed and the loop
stops — rejecting that layer — exactly when
`n_mas_1_i1 <= 2.5 or (n_mas_1_i1 > n_mas_1[i] and n_mas_1[i] != 0)`
(line 363); otherwise the layer is accepted and the loop continues.  `j`
counts accepted layers, `prev` carries the stored `n_mas_1[i]`, `fuel` bounds
the unbounded `while`; on exit the rejected layer's step index and its
`P_cal`, `T_cal` are returned (those feed line 382). -/
def loopA13 (body : ℕ → A13Vals) : ℕ → ℕ → ℚ → Option (ℕ × ℚ × ℚ)
  | 0, _, _ => none
  | fuel + 1, j, prev =>
    if a13_n1 body j ≤ 5/2 ∨ (a13_n1 body j > prev ∧ prev ≠ 0) then
      some (j, (body j).P_cal, (body j).T_cal)
    else loopA13 body fuel (j + 1) (a13_n1 body j)

/-- Modelled from the spec's words for comparison with the code: the claim's
exit rule — `n+1` at the new layer drops to `≤ 2.5`, or increases after the
previous layer's value was positive. -/
def specA13Exit (body : ℕ → A13Vals) (j : ℕ) : Prop :=
  a13_n1 body j ≤ 5/2 ∨ (a13_n1 body j > a13_prev body j ∧ 0 < a13_prev body j)

instance specA13Exit_decidable (body : ℕ → A13Vals) (j : ℕ) :
    Decidable (specA13Exit body j) := by
  unfold specA13Exit; infer_instance

/-- Phase A.2 loop (`estrella.py` lines 387-443) viewed through its uses of
the polytropic constant: each outer iteration evaluates
`poli.presion(·, k_prima)` a number of times given by the oracle `calls`
(once per temperature-loop pass at line 398 and once more at line 421 when
`r_i1 != 0`), then tests for exit (`r_i1 < 0`, decided by the oracle
`exit`).  The constant `k` is carried through the recursion unchanged —
mirroring that the source never reassigns `k_prima` — and every value handed
to `presion` is recorded in the accumulator. -/
def loopA2K (exit : ℕ → Bool) (calls : ℕ → ℕ) : ℕ → ℕ → ℝ → List ℝ → List ℝ
  | 0, _, _, acc => acc
  | fuel + 1, j, k, acc =>
    if exit j then acc ++ List.replicate (calls j) k
    else loopA2K exit calls fuel (j + 1) k (acc ++ List.replicate (calls j) k)

/-- Central-temperature bracketing loop (`estrella.py` lines 481-488) viewed
through its uses of the polytropic constant: each iteration calls
`fb.conveccion(T_c, rf, -h, X, Y, k_prima)` (line 482) — recording `k` —
then either exits (oracle `exitc`) or steps the temperature.  `k` is carried
through the recursion unchanged. -/
def loopTK (exitc : ℕ → Bool) : ℕ → ℕ → ℝ → List ℝ → List ℝ
  | 0, _, _, acc => acc
  | fuel + 1, j, k, acc =>
    if exitc j then acc ++ [k]
    else loopTK exitc fuel (j + 1) k (acc ++ [k])

/-- Uses of the polytropic constant across one `star` invocation
(`estrella.py`): regime A.1.3 runs to its exit (rejected layer values
`P_cal`, `T_cal`), line 382 computes `k_prima = poli.cte_k(P_cal, T_cal)` —
the sole assignment — and the same `k_prima` is then handed to Phase A.2's
polytropic-pressure calls, to the direction-detection `conveccion` call
(line 465), to every bracketing iteration (line 482), to every fine-sweep
trial (line 503, `sweepN` of them) and to the final run (line 516).  Returns
`none` when regime A.1.3 does not finish within its fuel, else `k_prima`
together with the recorded list of every value passed on. -/
noncomputable def starKUses (bodyA13 : ℕ → A13Vals) (fuelA13 : ℕ)
    (a2exit : ℕ → Bool) (a2calls : ℕ → ℕ) (fuelA2 : ℕ)
    (brkExit : ℕ → Bool) (fuelBrk : ℕ) (sweepN : ℕ) : Option (ℝ × List ℝ) :=
  match loopA13 bodyA13 fuelA13 0 0 with
  | none => none
  | some (_, P_cal, T_cal) =>
    let k_prima : ℝ := politropo.cte_k (P_cal : ℝ) (T_cal : ℝ)
    let uses := loopA2K a2exit a2calls fuelA2 0 k_prima []
      ++ [k_prima]
      ++ loopTK brkExit fuelBrk 0 k_prima []
      ++ List.replicate sweepN k_prima
      ++ [k_prima]
    some (k_prima, uses)

/-- Radius bookkeeping shared by the four Phase A regime loops
(`estrella.py` lines 184-443): each step proposes radius
`r_i1 = R_ini + h*(i+1)`; the regime's exit test (abstracted as the oracle
`exit`, since it depends on predictor-corrector values that do not affect
the radii) either stops the loop — rejecting the layer — or accepts the
layer with exactly that radius and advances `i`.  Returns the final loop
counter together with the accepted radii. -/
def loopARadii (R_ini h : ℚ) (exit : ℕ → Bool) : ℕ → ℕ → List ℚ → ℕ × List ℚ
  | 0, i, acc => (i, acc)
  | fuel + 1, i, acc =>
    if exit i then (i, acc)
    else loopARadii R_ini h exit fuel (i + 1) (acc ++ [R_ini + h * ((i : ℚ) + 1)])

/-- Accepted radii of Phase A: the three seed layers at `r_i = R_ini + h*i`,
`i = 0,1,2` (line 159), then the four regime loops A.1.1, A.1.2, A.1.3, A.2
run in sequence, each continuing from the previous loop counter. -/
def faseARadii (R_ini h : ℚ) (e1 e2 e3 e4 : ℕ → Bool) (f1 f2 f3 f4 : ℕ) :
    List ℚ :=
  let seed := (List.range 3).map fun i : ℕ => R_ini + h * (i : ℚ)
  let s1 := loopARadii R_ini h e1 f1 2 seed
  let s2 := loopARadii R_ini h e2 f2 s1.1 s1.2
  let s3 := loopARadii R_ini h e3 f3 s2.1 s2.2
  let s4 := loopARadii R_ini h e4 f4 s3.1 s3.2
  s4.2

/-- Numpy `arange(start, stop, step)` for a positive step in exact
arithmetic: `ceil((stop-start)/step)` points `start + k*step`, the endpoint
excluded. -/
def arangeQ (start stop step : ℚ) : List ℚ :=
  (List.range (Int.ceil ((stop - start) / step)).toNat).map
    fun k : ℕ => start + (k : ℚ) * step

/-- Combined relative error between the Phase A and Phase B boundary
5-tuples (`estrella.py` lines 505-506): componentwise
`E_r = abs((Frontera_A - Frontera_B)/Frontera_A)`, then
`sqrt(E_r[1]**2 + E_r[2]**2 + E_r[3]**2 + E_r[4]**2)` — pressure,
temperature, mass, luminosity; index 0 (the radius) excluded. -/
noncomputable def E_rT_of (FA FB : Fin 5 → ℝ) : ℝ :=
  Real.sqrt (|(FA 1 - FB 1) / FA 1| ^ 2 + |(FA 2 - FB 2) / FA 2| ^ 2 +
    |(FA 3 - FB 3) / FA 3| ^ 2 + |(FA 4 - FB 4) / FA 4| ^ 2)

/-- Python `min` over a nonempty list (the empty case never arises: the
buffer swept has fixed length 501). -/
noncomputable def pyMin : List ℝ → ℝ
  | [] => 0
  | [x] => x
  | x :: y :: rest => min x (pyMin (y :: rest))

/-- Trial central temperatures of the fine sweep (`estrella.py` line 502):
`np.arange(T_c_init, T_c_fin, E_rel_max)` with `E_rel_max = 0.0001`. -/
def sweepTrials (T_c_init T_c_fin : ℚ) : List ℚ :=
  arangeQ T_c_init T_c_fin (1/10000)

/-- Entry `j` of the error buffer `E_rT = np.zeros(501)` after the sweep
(lines 499-509): trials fill the prefix in order, computing the combined
relative error against Phase A's boundary values; unfilled slots keep their
zero initialization.  `FB` abstracts `fb.conveccion`'s interpolated boundary
values for a trial temperature; `FA` is `Frontera_A`. -/
noncomputable def sweepErr (FA : Fin 5 → ℝ) (FB : ℚ → Fin 5 → ℝ)
    (T_c_init T_c_fin : ℚ) (j : ℕ) : ℝ :=
  if j < (sweepTrials T_c_init T_c_fin).length then
    E_rT_of FA (FB ((sweepTrials T_c_init T_c_fin).getD j 0))
  else 0

/-- Entry `j` of the buffer `T_prueba = np.zeros(501)` after the sweep. -/
def sweepTprueba (T_c_init T_c_fin : ℚ) (j : ℕ) : ℚ :=
  (sweepTrials T_c_init T_c_fin).getD j 0

/-- Returned minimum (`estrella.py` line 511): `minimo = min(E_rT)` — the
minimum over the whole 501-slot buffer, filled or not. -/
noncomputable def sweepMin (FA : Fin 5 → ℝ) (FB : ℚ → Fin 5 → ℝ)
    (T_c_init T_c_fin : ℚ) : ℝ :=
  pyMin ((List.range 501).map (sweepErr FA FB T_c_init T_c_fin))

/-- Fitted central temperature (lines 512-513):
`pos, = np.where(E_rT == minimo)` then `T_c_def = float(T_prueba[pos])`,
which is defined only when the minimum is attained at exactly one buffer
position (otherwise `float` on a size-´>1´ array raises). -/
noncomputable def sweepTcDef (FA : Fin 5 → ℝ) (FB : ℚ → Fin 5 → ℝ)
    (T_c_init T_c_fin : ℚ) : Option ℚ :=
  match (List.range 501).filter
      (fun j => decide (sweepErr FA FB T_c_init T_c_fin j
        = sweepMin FA FB T_c_init T_c_fin)) with
  | [p] => some (sweepTprueba T_c_init T_c_fin p)
  | _ => none

/-- Fine minimization stage (`estrella.py` lines 498-513): the pair
`(minimo, T_c_def)` it produces. -/
noncomputable def fineSweep (FA : Fin 5 → ℝ) (FB : ℚ → Fin 5 → ℝ)
    (T_c_init T_c_fin : ℚ) : ℝ × Option ℚ :=
  (sweepMin FA FB T_c_init T_c_fin, sweepTcDef FA FB T_c_init T_c_fin)

/-- Outcome of the direction-detection and bracketing stage. -/
inductive BracketOutcome
  | bracketed (T_c_init T_c_fin : ℝ)
  | unboundLocal
  | running

/-- Bracketing loop (`estrella.py` lines 480-493): each iteration re-runs
Phase B at the current `T_c` (its boundary luminosity `Frontera_B[-1]` is
the oracle `LB`), tests
`((Increase_T_c and Frontera_B[-1] > Frontera_A[-1]) or Frontera_B[-1] == 0)
or ((Decrease_T_c and Frontera_B[-1] < Frontera_A[-1]) or
Frontera_B[-1] == 0)`, and otherwise executes `T_c += incremento`.  When
neither direction flag was set, `incremento` was never assigned, and both
the step (line 488) and the bracket extraction `T_c_l = T_c - incremento`
(line 491) raise `UnboundLocalError`; on normal exit the bracket is
`[min(T_c_l, T_c), max(T_c_l, T_c)]` (lines 491-493). -/
noncomputable def loopT (LB : ℝ → ℝ) (FA : ℝ) (incB decB : Bool)
    (incO : Option ℝ) : ℕ → ℝ → BracketOutcome
  | 0, _ => BracketOutcome.running
  | fuel + 1, T_c =>
    if ((incB = true ∧ LB T_c > FA) ∨ LB T_c = 0)
        ∨ ((decB = true ∧ LB T_c < FA) ∨ LB T_c = 0) then
      match incO with
      | none => BracketOutcome.unboundLocal
      | some inc => BracketOutcome.bracketed (min (T_c - inc) T_c) (max (T_c - inc) T_c)
    else
      match incO with
      | none => BracketOutcome.unboundLocal
      | some inc => loopT LB FA incB decB incO fuel (T_c + inc)

/-- Direction detection plus bracketing (`estrella.py` lines 470-493):
the flags and `incremento` are set from the comparison of the initial
Phase B boundary luminosity against Phase A's (`incremento = ±0.05`; on an
exact tie neither branch runs and `incremento` stays unassigned), then the
bracketing loop runs. -/
noncomputable def bracketStage (LB : ℝ → ℝ) (FA : ℝ) (T_c : ℝ) (fuel : ℕ) :
    BracketOutcome :=
  let incB : Bool := decide (LB T_c < FA)
  let decB : Bool := decide (FA < LB T_c)
  let incO : Option ℝ :=
    if LB T_c < FA then some (1/20)
    else if FA < LB T_c then some (-(1/20)) else none
  loopT LB FA incB decB incO fuel T_c

/-- Numpy `trim_zeros(·, trim='b')`: remove trailing zeros only. -/
def trimZerosB (l : List ℚ) : List ℚ :=
  (l.reverse.dropWhile fun x => x == 0).reverse

/-- Numpy `round(·, 4)` on an exact rational (the tie-breaking mode of
floating `np.round` is immaterial to every property stated here). -/
def np_round4 (q : ℚ) : ℚ := ((round (q * 10000) : ℤ) : ℚ) / 10000

/-- Raw per-phase buffers as they stand when the result assembly of `star`
begins (`estrella.py` line 528): the five value buffers and the label list
of each of Phase B, Phase A and Phase 0. -/
structure FaseBuffers where
  r_B : List ℚ
  P_B : List ℚ
  T_B : List ℚ
  M_B : List ℚ
  L_B : List ℚ
  Ciclo_B : List CycleLabel
  r_A : List ℚ
  P_A : List ℚ
  T_A : List ℚ
  M_A : List ℚ
  L_A : List ℚ
  Ciclo_A : List CycleLabel
  r_0 : List ℚ
  P_0 : List ℚ
  T_0 : List ℚ
  M_0 : List ℚ
  L_0 : List ℚ
  Ciclo_0 : List CycleLabel

/-- The dictionary `agrupado` returned by `star` (lines 577-584). -/
structure Agrupado where
  Capa : List ℕ
  Transporte : List TransportMode
  Ciclo : List CycleLabel
  Radio : List ℚ
  Presion : List ℚ
  Temperatura : List ℚ
  Masa : List ℚ
  Luminosidad : List ℚ

/-- Result assembly of `star` (`estrella.py` lines 528-584): each Phase B
buffer is trailing-zero trimmed then loses its last entry (`[:-1]`); each
Phase A buffer is trailing-zero trimmed then cut to the first `i_f + 1`
entries; each Phase 0 buffer is trailing-zero trimmed; the label lists are
sliced without trimming.  The merged value rows are
`concatenate((X_B, flip(X_A), X_0))` rounded to 4 decimals, `Capa` is
`arange(len(r))`, the cycle row is `Ciclo_B + Ciclo_A[::-1] + Ciclo_0`, and
the transport row is `['CONVECTIVO']*len(r_B) +
['RADIATIVO']*(len(r_0)+len(r_A))`. -/
def assemble (B : FaseBuffers) (i_f : ℕ) : Agrupado :=
  let r_B := (trimZerosB B.r_B).dropLast
  let P_B := (trimZerosB B.P_B).dropLast
  let T_B := (trimZerosB B.T_B).dropLast
  let M_B := (trimZerosB B.M_B).dropLast
  let L_B := (trimZerosB B.L_B).dropLast
  let Ciclo_B := B.Ciclo_B.dropLast
  let r_A := (trimZerosB B.r_A).take (i_f + 1)
  let P_A := (trimZerosB B.P_A).take (i_f + 1)
  let T_A := (trimZerosB B.T_A).take (i_f + 1)
  let M_A := (trimZerosB B.M_A).take (i_f + 1)
  let L_A := (trimZerosB B.L_A).take (i_f + 1)
  let Ciclo_A := B.Ciclo_A.take (i_f + 1)
  let r_0 := trimZerosB B.r_0
  let P_0 := trimZerosB B.P_0
  let T_0 := trimZerosB B.T_0
  let M_0 := trimZerosB B.M_0
  let L_0 := trimZerosB B.L_0
  let r := (r_B ++ r_A.reverse ++ r_0).map np_round4
  { Capa := List.range r.length
    Transporte := List.replicate r_B.length TransportMode.CONVECTIVO
      ++ List.replicate (r_0.length + r_A.length) TransportMode.RADIATIVO
    Ciclo := Ciclo_B ++ Ciclo_A.reverse ++ B.Ciclo_0
    Radio := r
    Presion := (P_B ++ P_A.reverse ++ P_0).map np_round4
    Temperatura := (T_B ++ T_A.reverse ++ T_0).map np_round4
    Masa := (M_B ++ M_A.reverse ++ M_0).map np_round4
    Luminosidad := (L_B ++ L_A.reverse ++ L_0).map np_round4 }

/-- Number of adjacent label changes along a transport row. -/
def adjSwitches : List TransportMode → ℕ
  | a :: b :: rest => (if a = b then 0 else 1) + adjSwitches (b :: rest)
  | _ => 0

/-- Every adjacent label change goes from the convective label to the
radiative label. -/
def onlyCtoR : List TransportMode → Prop
  | a :: b :: rest =>
    (a = b ∨ (a = TransportMode.CONVECTIVO ∧ b = TransportMode.RADIATIVO))
      ∧ onlyCtoR (b :: rest)
  | _ => True

end estrella

/-- Concrete two-step oracle for the C3 witness: step 0 yields `n+1 = 3`
(layer accepted), step 1 yields `n+1 = 2` (loop exits). -/
def c3Body : ℕ → estrella.A13Vals := fun j =>
  if j = 0 then ⟨1, 1, 3, 1⟩ else ⟨1, 1, 2, 1⟩

/-- Concrete oracle for the C2 witness: the first trial layer already has
`n+1 = 1/2 ≤ 2.5`, so regime A.1.3 exits immediately with
`P_cal = 2`, `T_cal = 1`. -/
def c2Body : ℕ → estrella.A13Vals := fun _ => ⟨2, 1, 1, 1⟩

/-- Phase A boundary values for the C1 failing input: all components `1`. -/
noncomputable def c1FA : Fin 5 → ℝ := fun _ => 1

/-- Phase B boundary-value oracle for the C1 failing input: pressure
component `1/2`, all others `1`, for every trial temperature — so every
computed combined error is exactly `1/2`. -/
noncomputable def c1FB : ℚ → Fin 5 → ℝ := fun _ i => if i = 1 then 1/2 else 1

/-- Helium fraction of the C4 counterexample input: chosen so that at
`T = 1.5`, `X = 3/4` the two rates tie exactly at a nonzero value. -/
noncomputable def c4Y : ℝ :=
  1 - 3/4 - (9/4) * (10 : ℝ) ^ (17.18 : ℝ) / (15 : ℝ) ^ (16 : ℝ)

/-- Concrete buffers for the C10 counterexample: a Phase B run whose
luminosity buffer holds only zeros (no energy generation), so its
trailing-zero trim empties it while the radius buffer keeps its layers. -/
def c10Buffers : estrella.FaseBuffers :=
  { r_B := [0, 1, 2], P_B := [5, 5, 5], T_B := [5, 5, 5], M_B := [0, 5, 5]
    L_B := [0, 0, 0], Ciclo_B := [CycleLabel.NONE, CycleLabel.NONE, CycleLabel.NONE]
    r_A := [5], P_A := [5], T_A := [5], M_A := [5], L_A := [5]
    Ciclo_A := [CycleLabel.NONE]
    r_0 := [], P_0 := [], T_0 := [], M_0 := [], L_0 := [], Ciclo_0 := [] }

/-- Concrete benign buffers for the C10 witness: every trimmed buffer of a
phase has the same length and the label lists match. -/
def c10Good : estrella.FaseBuffers :=
  { r_B := [0, 1], P_B := [1, 1], T_B := [1, 1], M_B := [0, 1]
    L_B := [0, 1], Ciclo_B := [CycleLabel.NONE, CycleLabel.NONE]
    r_A := [5], P_A := [5], T_A := [5], M_A := [5], L_A := [5]
    Ciclo_A := [CycleLabel.NONE]
    r_0 := [], P_0 := [], T_0 := [], M_0 := [], L_0 := [], Ciclo_0 := [] }

/-- C6: for every temperature `T > 0` and every polytropic constant `k`,
composing the temperature-to-pressure map with the constant extraction is the
identity on `k`: `cte_k (presion T k) T = k` (exact arithmetic). -/
theorem c6_polytrope_round_trip (T k : ℝ) (hT : 0 < T) :
    politropo.cte_k (politropo.presion T k) T = k := by
  have hpow : (0 : ℝ) < T ^ (2.5 : ℝ) := Real.rpow_pos_of_pos hT _
  rw [politropo.presion, if_neg (not_le.mpr hT), politropo.cte_k,
    mul_div_assoc, div_self hpow.ne', mul_one]

/-- C6 witness: the round trip evaluated at `T = 2`, `k = 5`. -/
theorem c6_polytrope_round_trip_witness :
    (0 : ℝ) < 2 ∧ politropo.cte_k (politropo.presion 2 5) 2 = 5 :=
  ⟨by norm_num, c6_polytrope_round_trip 2 5 (by norm_num)⟩

theorem loopA13_spec (body : ℕ → estrella.A13Vals) :
    ∀ (fuel j n : ℕ) (P T : ℚ),
      (estrella.a13_prev body j = 0 ∨ 5/2 < estrella.a13_prev body j) →
      estrella.loopA13 body fuel j (estrella.a13_prev body j) = some (n, P, T) →
      j ≤ n ∧ P = (body n).P_cal ∧ T = (body n).T_cal ∧
        estrella.specA13Exit body n ∧
        ∀ m, j ≤ m → m < n → ¬ estrella.specA13Exit body m := by
  intro fuel
  induction fuel with
  | zero => intro j n P T _ h; simp [estrella.loopA13] at h
  | succ fuel ih =>
    intro j n P T hinv h
    have hiff : (estrella.a13_n1 body j ≤ 5/2 ∨
        (estrella.a13_n1 body j > estrella.a13_prev body j ∧
          estrella.a13_prev body j ≠ 0)) ↔
        estrella.specA13Exit body j := by
      unfold estrella.specA13Exit
      rcases hinv with h0 | hpos
      · rw [h0]; simp
      · constructor
        · rintro (h1 | ⟨h2, _⟩)
          · exact Or.inl h1
          · exact Or.inr ⟨h2, lt_trans (by norm_num) hpos⟩
        · rintro (h1 | ⟨h2, _⟩)
          · exact Or.inl h1
          · exact Or.inr ⟨h2, (lt_trans (by norm_num) hpos).ne'⟩
    rw [estrella.loopA13] at h
    by_cases hc : estrella.a13_n1 body j ≤ 5/2 ∨
        (estrella.a13_n1 body j > estrella.a13_prev body j ∧
          estrella.a13_prev body j ≠ 0)
    · rw [if_pos hc] at h
      obtain ⟨rfl, rfl, rfl⟩ : j = n ∧ P = (body j).P_cal ∧ T = (body j).T_cal := by
        have := h; simp at this; tauto
      exact ⟨le_refl _, rfl, rfl, hiff.mp hc, fun m hm hm' => absurd hm' (by omega)⟩
    · rw [if_neg hc] at h
      have hgt : 5/2 < estrella.a13_n1 body j := by
        rcases not_or.mp hc with ⟨h1, _⟩; exact lt_of_not_le h1
      have hprev1 : estrella.a13_prev body (j + 1) = estrella.a13_n1 body j := rfl
      have hrec := ih (j + 1) n P T (by rw [hprev1]; exact Or.inr hgt)
        (by rw [hprev1]; exact h)
      obtain ⟨hle, hP, hT, hexit, hmin⟩ := hrec
      refine ⟨by omega, hP, hT, hexit, ?_⟩
      intro m hm hm'
      rcases Nat.eq_or_lt_of_le hm with rfl | hlt
      · exact fun hs => hc (hiff.mpr hs)
      · exact hmin m hlt hm'

/-- C3: the radiative regime of Phase A with mass and luminosity variable
(regime A.1.3) exits — rejecting the newly computed layer — exactly when the
transport parameter `n+1 = (T/P)*(dP/dT)` at the new layer is `≤ 2.5`, or
when it increases over the previous layer's value after that previous value
was positive; every earlier layer was accepted because neither condition
held.  (The code tests `n_mas_1[i] != 0` rather than `0 < n_mas_1[i]`, but
the stored previous value is either `0` or `> 2.5` in every reachable loop
state, so the two tests agree.) -/
theorem c3_radiative_exit_rule (body : ℕ → estrella.A13Vals) (fuel n : ℕ) (P T : ℚ)
    (h : estrella.loopA13 body fuel 0 0 = some (n, P, T)) :
    P = (body n).P_cal ∧ T = (body n).T_cal ∧
    estrella.specA13Exit body n ∧ ∀ m < n, ¬ estrella.specA13Exit body m := by
  have h0 : estrella.a13_prev body 0 = 0 := rfl
  have := loopA13_spec body fuel 0 n P T (Or.inl h0) (by rw [h0]; exact h)
  exact ⟨this.2.1, this.2.2.1, this.2.2.2.1, fun m hm => this.2.2.2.2 m (Nat.zero_le m) hm⟩

/-- C3 witness: on the concrete oracle the loop accepts one layer and exits
rejecting the next, and the exit rule holds there and fails earlier. -/
theorem c3_radiative_exit_rule_witness :
    estrella.loopA13 c3Body 5 0 0 = some (1, 1, 1) ∧
    ((1 : ℚ) = (c3Body 1).P_cal ∧ (1 : ℚ) = (c3Body 1).T_cal ∧
      estrella.specA13Exit c3Body 1 ∧ ∀ m < 1, ¬ estrella.specA13Exit c3Body m) :=
  ⟨by norm_num [estrella.loopA13, estrella.a13_n1, c3Body, transporte.n_mas_1],
   c3_radiative_exit_rule c3Body 5 1 1 1
     (by norm_num [estrella.loopA13, estrella.a13_n1, c3Body, transporte.n_mas_1])⟩

theorem adjSwitches_cons_replicate (x : TransportMode) (n : ℕ) :
    estrella.adjSwitches (x :: List.replicate n x) = 0 := by
  induction n with
  | zero => rfl
  | succ n ih => simp [List.replicate_succ, estrella.adjSwitches, ih]

theorem onlyCtoR_cons_replicate (x : TransportMode) (n : ℕ) :
    estrella.onlyCtoR (x :: List.replicate n x) := by
  induction n with
  | zero => trivial
  | succ n ih =>
    rw [List.replicate_succ]
    exact ⟨Or.inl rfl, ih⟩

theorem transp_block (nC nR : ℕ) :
    estrella.adjSwitches (List.replicate nC TransportMode.CONVECTIVO ++
      List.replicate nR TransportMode.RADIATIVO) ≤ 1 ∧
    estrella.onlyCtoR (List.replicate nC TransportMode.CONVECTIVO ++
      List.replicate nR TransportMode.RADIATIVO) := by
  induction nC with
  | zero =>
    simp only [List.replicate_zero, List.nil_append]
    cases nR with
    | zero => exact ⟨by decide, trivial⟩
    | succ m =>
      rw [List.replicate_succ]
      exact ⟨by simp [adjSwitches_cons_replicate], onlyCtoR_cons_replicate _ m⟩
  | succ m ihm =>
    cases m with
    | zero =>
      cases nR with
      | zero => exact ⟨by decide, trivial⟩
      | succ p =>
        rw [List.replicate_succ, List.replicate_succ]
        constructor
        · simp [estrella.adjSwitches, adjSwitches_cons_replicate]
        · exact ⟨Or.inr ⟨rfl, rfl⟩, onlyCtoR_cons_replicate _ p⟩
    | succ p =>
      have hrw : List.replicate (p + 2) TransportMode.CONVECTIVO ++
          List.replicate nR TransportMode.RADIATIVO =
          TransportMode.CONVECTIVO ::
            (List.replicate (p + 1) TransportMode.CONVECTIVO ++
              List.replicate nR TransportMode.RADIATIVO) := by
        rw [List.replicate_succ, List.cons_append]
      rw [hrw]
      have hcons : List.replicate (p + 1) TransportMode.CONVECTIVO ++
          List.replicate nR TransportMode.RADIATIVO =
          TransportMode.CONVECTIVO ::
            (List.replicate p TransportMode.CONVECTIVO ++
              List.replicate nR TransportMode.RADIATIVO) := by
        rw [List.replicate_succ, List.cons_append]
      constructor
      · calc estrella.adjSwitches (TransportMode.CONVECTIVO ::
            (List.replicate (p + 1) TransportMode.CONVECTIVO ++
              List.replicate nR TransportMode.RADIATIVO))
            = estrella.adjSwitches (List.replicate (p + 1) TransportMode.CONVECTIVO ++
              List.replicate nR TransportMode.RADIATIVO) := by
              rw [hcons]; simp [estrella.adjSwitches]
          _ ≤ 1 := ihm.1
      · rw [hcons]
        exact ⟨Or.inl rfl, by rw [← hcons]; exact ihm.2⟩

/-- C8: in the merged layer table returned by `star`, the transport-mode row
is `['CONVECTIVO']*len(r_B) + ['RADIATIVO']*(len(r_0)+len(r_A))`, so the
label changes at most once along the sequence, and when it changes it
changes from the convective label (center end) to the radiative label
(surface end). -/
theorem c8_transport_single_switch (B : estrella.FaseBuffers) (i_f : ℕ) :
    estrella.adjSwitches (estrella.assemble B i_f).Transporte ≤ 1 ∧
    estrella.onlyCtoR (estrella.assemble B i_f).Transporte := by
  have hT : (estrella.assemble B i_f).Transporte =
      List.replicate ((estrella.trimZerosB B.r_B).dropLast.length)
        TransportMode.CONVECTIVO ++
      List.replicate ((estrella.trimZerosB B.r_0).length +
        ((estrella.trimZerosB B.r_A).take (i_f + 1)).length)
        TransportMode.RADIATIVO := rfl
  rw [hT]
  exact transp_block _ _

/-- C10 counterexample: on buffers whose Phase B luminosity column is all
zeros (a run without energy generation), the independent trailing-zero trims
leave the merged radius row with 3 entries but the luminosity row with 1, so
the per-layer sequences of the returned dictionary do not all share one
length. -/
theorem c10_counterexample :
    (estrella.assemble c10Buffers 0).Radio.length = 3 ∧
    (estrella.assemble c10Buffers 0).Luminosidad.length = 1 ∧
    (estrella.assemble c10Buffers 0).Luminosidad.length ≠
      (estrella.assemble c10Buffers 0).Radio.length := by decide

/-- C10 amended: the eight per-layer rows of the returned dictionary all
have the same length `(nB - 1) + (i_f + 1) + n0` provided the five value
buffers of each phase trim to a common length per phase (`nB` for Phase B,
at least `i_f + 1` for Phase A, `n0` for Phase 0) and the label lists match
those lengths — the situation of a benign run, where no stored value sits at
the end of a filled prefix as a zero; independent trimming can otherwise
yield differing lengths. -/
theorem c10_row_lengths_amended (B : estrella.FaseBuffers) (i_f nB n0 : ℕ)
    (hrB : (estrella.trimZerosB B.r_B).length = nB)
    (hPB : (estrella.trimZerosB B.P_B).length = nB)
    (hTB : (estrella.trimZerosB B.T_B).length = nB)
    (hMB : (estrella.trimZerosB B.M_B).length = nB)
    (hLB : (estrella.trimZerosB B.L_B).length = nB)
    (hCB : B.Ciclo_B.length = nB)
    (hrA : i_f + 1 ≤ (estrella.trimZerosB B.r_A).length)
    (hPA : i_f + 1 ≤ (estrella.trimZerosB B.P_A).length)
    (hTA : i_f + 1 ≤ (estrella.trimZerosB B.T_A).length)
    (hMA : i_f + 1 ≤ (estrella.trimZerosB B.M_A).length)
    (hLA : i_f + 1 ≤ (estrella.trimZerosB B.L_A).length)
    (hCA : i_f + 1 ≤ B.Ciclo_A.length)
    (hr0 : (estrella.trimZerosB B.r_0).length = n0)
    (hP0 : (estrella.trimZerosB B.P_0).length = n0)
    (hT0 : (estrella.trimZerosB B.T_0).length = n0)
    (hM0 : (estrella.trimZerosB B.M_0).length = n0)
    (hL0 : (estrella.trimZerosB B.L_0).length = n0)
    (hC0 : B.Ciclo_0.length = n0) :
    (estrella.assemble B i_f).Capa.length = (nB - 1) + (i_f + 1) + n0 ∧
    (estrella.assemble B i_f).Transporte.length = (nB - 1) + (i_f + 1) + n0 ∧
    (estrella.assemble B i_f).Ciclo.length = (nB - 1) + (i_f + 1) + n0 ∧
    (estrella.assemble B i_f).Radio.length = (nB - 1) + (i_f + 1) + n0 ∧
    (estrella.assemble B i_f).Presion.length = (nB - 1) + (i_f + 1) + n0 ∧
    (estrella.assemble B i_f).Temperatura.length = (nB - 1) + (i_f + 1) + n0 ∧
    (estrella.assemble B i_f).Masa.length = (nB - 1) + (i_f + 1) + n0 ∧
    (estrella.assemble B i_f).Luminosidad.length = (nB - 1) + (i_f + 1) + n0 := by
  refine ⟨?_, ?_, ?_, ?_, ?_, ?_, ?_, ?_⟩ <;>
    simp [estrella.assemble, List.length_append, List.length_map,
      List.length_reverse, List.length_dropLast, List.length_take,
      List.length_range, List.length_replicate, hrB, hPB, hTB, hMB, hLB, hCB,
      hr0, hP0, hT0, hM0, hL0, hC0, Nat.min_eq_left hrA, Nat.min_eq_left hPA,
      Nat.min_eq_left hTA, Nat.min_eq_left hMA, Nat.min_eq_left hLA,
      Nat.min_eq_left hCA] <;> omega

/-- C10 witness: on benign concrete buffers the hypotheses hold and all
eight rows have length 2. -/
theorem c10_row_lengths_amended_witness :
    ((estrella.trimZerosB c10Good.r_B).length = 2 ∧
      (estrella.trimZerosB c10Good.P_B).length = 2 ∧
      (estrella.trimZerosB c10Good.T_B).length = 2 ∧
      (estrella.trimZerosB c10Good.M_B).length = 2 ∧
      (estrella.trimZerosB c10Good.L_B).length = 2 ∧
      c10Good.Ciclo_B.length = 2 ∧
      0 + 1 ≤ (estrella.trimZerosB c10Good.r_A).length ∧
      0 + 1 ≤ (estrella.trimZerosB c10Good.P_A).length ∧
      0 + 1 ≤ (estrella.trimZerosB c10Good.T_A).length ∧
      0 + 1 ≤ (estrella.trimZerosB c10Good.M_A).length ∧
      0 + 1 ≤ (estrella.trimZerosB c10Good.L_A).length ∧
      0 + 1 ≤ c10Good.Ciclo_A.length ∧
      (estrella.trimZerosB c10Good.r_0).length = 0 ∧
      (estrella.trimZerosB c10Good.P_0).length = 0 ∧
      (estrella.trimZerosB c10Good.T_0).length = 0 ∧
      (estrella.trimZerosB c10Good.M_0).length = 0 ∧
      (estrella.trimZerosB c10Good.L_0).length = 0 ∧
      c10Good.Ciclo_0.length = 0) ∧
    (estrella.assemble c10Good 0).Capa.length = (2 - 1) + (0 + 1) + 0 ∧
    (estrella.assemble c10Good 0).Transporte.length = (2 - 1) + (0 + 1) + 0 ∧
    (estrella.assemble c10Good 0).Ciclo.length = (2 - 1) + (0 + 1) + 0 ∧
    (estrella.assemble c10Good 0).Radio.length = (2 - 1) + (0 + 1) + 0 ∧
    (estrella.assemble c10Good 0).Presion.length = (2 - 1) + (0 + 1) + 0 ∧
    (estrella.assemble c10Good 0).Temperatura.length = (2 - 1) + (0 + 1) + 0 ∧
    (estrella.assemble c10Good 0).Masa.length = (2 - 1) + (0 + 1) + 0 ∧
    (estrella.assemble c10Good 0).Luminosidad.length = (2 - 1) + (0 + 1) + 0 :=
  ⟨by decide,
   c10_row_lengths_amended c10Good 0 2 0 (by decide) (by decide) (by decide)
     (by decide) (by decide) (by decide) (by decide) (by decide) (by decide)
     (by decide) (by decide) (by decide) (by decide) (by decide) (by decide)
     (by decide) (by decide) (by decide)⟩

theorem loopARadii_inv (R_ini h : ℚ) (e : ℕ → Bool) :
    ∀ (fuel i : ℕ) (acc : List ℚ),
      acc = (List.range (i + 1)).map (fun j : ℕ => R_ini + h * (j : ℚ)) →
      (estrella.loopARadii R_ini h e fuel i acc).2 =
        (List.range ((estrella.loopARadii R_ini h e fuel i acc).1 + 1)).map
          (fun j : ℕ => R_ini + h * (j : ℚ)) := by
  intro fuel
  induction fuel with
  | zero => intro i acc hacc; simpa [estrella.loopARadii] using hacc
  | succ fuel ih =>
    intro i acc hacc
    by_cases he : e i
    · simp only [estrella.loopARadii, he, if_true]
      exact hacc
    · simp only [estrella.loopARadii, he, if_false]
      apply ih
      rw [hacc, show List.range (i + 1 + 1) = List.range (i + 1) ++ [i + 1] from
        List.range_succ (i + 1), List.map_append]
      simp only [List.map_cons, List.map_nil, List.append_cancel_left_eq]
      push_cast
      ring_nf

theorem faseARadii_map (R_ini h : ℚ) (e1 e2 e3 e4 : ℕ → Bool)
    (f1 f2 f3 f4 : ℕ) :
    ∃ n, estrella.faseARadii R_ini h e1 e2 e3 e4 f1 f2 f3 f4 =
      (List.range n).map (fun j : ℕ => R_ini + h * (j : ℚ)) := by
  unfold estrella.faseARadii
  have h0 : (List.range 3).map (fun i : ℕ => R_ini + h * (i : ℚ)) =
      (List.range (2 + 1)).map (fun j : ℕ => R_ini + h * (j : ℚ)) := rfl
  have h1 := loopARadii_inv R_ini h e1 f1 2 _ h0
  have h2 := loopARadii_inv R_ini h e2 f2 _ _ h1
  have h3 := loopARadii_inv R_ini h e3 f3 _ _ h2
  have h4 := loopARadii_inv R_ini h e4 f4 _ _ h3
  exact ⟨_, h4⟩

theorem loopBRadii_inv (h rf : ℚ) :
    ∀ (fuel i : ℕ) (acc : List ℚ),
      acc = (List.range (i + 1)).map (fun j : ℕ => h * (j : ℚ)) →
      ∃ n, faseB.loopBRadii h rf fuel i acc =
        (List.range n).map (fun j : ℕ => h * (j : ℚ)) := by
  intro fuel
  induction fuel with
  | zero => intro i acc hacc; exact ⟨i + 1, by simpa [faseB.loopBRadii] using hacc⟩
  | succ fuel ih =>
    intro i acc hacc
    by_cases he : rf + h < h * ((i : ℚ) + 1)
    · exact ⟨i + 1, by simp only [faseB.loopBRadii, he, if_true]; exact hacc⟩
    · simp only [faseB.loopBRadii, he, if_false]
      apply ih
      rw [hacc, show List.range (i + 1 + 1) = List.range (i + 1) ++ [i + 1] from
        List.range_succ (i + 1), List.map_append]
      simp only [List.map_cons, List.map_nil, List.append_cancel_left_eq]
      push_cast
      ring_nf

theorem faseBRadii_map (h rf : ℚ) (fuel : ℕ) :
    ∃ n, faseB.faseBRadii h rf fuel =
      (List.range n).map (fun j : ℕ => h * (j : ℚ)) := by
  unfold faseB.faseBRadii
  exact loopBRadii_inv h rf fuel 2 _ rfl

theorem chain_gt_of_map_range (a d : ℚ) (hd : d < 0) (n : ℕ) :
    List.Chain' (· > ·) ((List.range n).map fun j : ℕ => a + d * (j : ℚ)) := by
  rw [List.chain'_iff_get]
  intro i hi
  simp only [List.get_eq_getElem, List.getElem_map, List.getElem_range]
  push_cast
  nlinarith [hd]

theorem chain_lt_of_map_range (d : ℚ) (hd : 0 < d) (n : ℕ) :
    List.Chain' (· < ·) ((List.range n).map fun j : ℕ => d * (j : ℚ)) := by
  rw [List.chain'_iff_get]
  intro i hi
  simp only [List.get_eq_getElem, List.getElem_map, List.getElem_range]
  push_cast
  nlinarith [hd]

/-- C7: with the step `h = -R_ini/num_capas < 0` of `star` (lines 87-89),
every accepted Phase A layer (seed layers through the convective
continuation, whatever the regimes' exit decisions) has radius
`R_ini + h*i` for its index `i`, so the radii strictly decrease layer over
layer; Phase B runs with step `-h > 0` and radii `(-h)*i`, strictly
increasing layer over layer. -/
theorem c7_radius_monotonicity (R_tot num rf : ℚ) (hR : 0 < R_tot)
    (hnum : 0 < num) (e1 e2 e3 e4 : ℕ → Bool) (f1 f2 f3 f4 fB : ℕ) :
    List.Chain' (· > ·) (estrella.faseARadii (0.9 * R_tot)
      (-(0.9 * R_tot) / num) e1 e2 e3 e4 f1 f2 f3 f4) ∧
    List.Chain' (· < ·) (faseB.faseBRadii (-(-(0.9 * R_tot) / num)) rf fB) := by
  have hh : (-(0.9 * R_tot) / num : ℚ) < 0 := by
    apply div_neg_of_neg_of_pos
    · nlinarith
    · exact hnum
  constructor
  · obtain ⟨n, hn⟩ := faseARadii_map (0.9 * R_tot) (-(0.9 * R_tot) / num)
      e1 e2 e3 e4 f1 f2 f3 f4
    rw [hn]
    exact chain_gt_of_map_range _ _ hh n
  · obtain ⟨n, hn⟩ := faseBRadii_map (-(-(0.9 * R_tot) / num)) rf fB
    rw [hn]
    exact chain_lt_of_map_range _ (by linarith) n

/-- C7 witness: the monotonicity at `R_tot = 10`, `num_capas = 100`,
`rf = 1`, trivial exit oracles and small fuels. -/
theorem c7_radius_monotonicity_witness :
    (0 : ℚ) < 10 ∧ (0 : ℚ) < 100 ∧
    (List.Chain' (· > ·) (estrella.faseARadii (0.9 * 10)
      (-(0.9 * 10) / 100) (fun _ => false) (fun _ => false) (fun _ => false)
      (fun _ => false) 2 2 2 2) ∧
    List.Chain' (· < ·) (faseB.faseBRadii (-(-(0.9 * 10) / 100)) 1 2)) :=
  ⟨by norm_num, by norm_num,
   c7_radius_monotonicity 10 100 1 (by norm_num) (by norm_num)
     (fun _ => false) (fun _ => false) (fun _ => false) (fun _ => false) 2 2 2 2 2⟩

theorem loopT_const_running :
    ∀ (fuel : ℕ) (T_c : ℝ),
      estrella.loopT (fun _ => 1) 2 true false (some (1/20)) fuel T_c =
        estrella.BracketOutcome.running := by
  intro fuel
  induction fuel with
  | zero => intro T_c; rfl
  | succ fuel ih =>
    intro T_c
    simp only [estrella.loopT]
    split
    · rename_i hc
      exfalso
      revert hc
      norm_num
    · exact ih (T_c + 1/20)

/-- C5: the direction-detection and bracketing stage never surfaces a
"model not matchable" error.  When every Phase B boundary luminosity stays
on the same side of Phase A's (here: constantly `1` against `2`, so a sign
change can never be established), the loop keeps stepping for every fuel
bound — it loops forever.  When the two boundary luminosities are exactly
equal at the first comparison, neither direction flag is set, `incremento`
is never assigned, and the first use of it raises `UnboundLocalError` — not
the claimed error either. -/
theorem c5_bracketing_never_surfaces_error :
    (∀ fuel : ℕ, estrella.bracketStage (fun _ => 1) 2 0 fuel =
      estrella.BracketOutcome.running) ∧
    (∀ fuel : ℕ, estrella.bracketStage (fun _ => 1) 1 0 (fuel + 1) =
      estrella.BracketOutcome.unboundLocal) := by
  constructor
  · intro fuel
    show estrella.loopT (fun _ => 1) 2 (decide ((1 : ℝ) < 2))
      (decide ((2 : ℝ) < 1))
      (if (1 : ℝ) < 2 then some ((1 : ℝ)/20)
        else if (2 : ℝ) < 1 then some (-(1/20) : ℝ) else none) fuel 0 =
      estrella.BracketOutcome.running
    rw [decide_eq_true (show (1 : ℝ) < 2 by norm_num),
      decide_eq_false (show ¬ ((2 : ℝ) < 1) by norm_num),
      if_pos (show (1 : ℝ) < 2 by norm_num)]
    exact loopT_const_running fuel 0
  · intro fuel
    show estrella.loopT (fun _ => 1) 1 (decide ((1 : ℝ) < 1))
      (decide ((1 : ℝ) < 1))
      (if (1 : ℝ) < 1 then some ((1 : ℝ)/20)
        else if (1 : ℝ) < 1 then some (-(1/20) : ℝ) else none) (fuel + 1) 0 =
      estrella.BracketOutcome.unboundLocal
    rw [decide_eq_false (show ¬ ((1 : ℝ) < 1) by norm_num),
      if_neg (show ¬ ((1 : ℝ) < 1) by norm_num),
      if_neg (show ¬ ((1 : ℝ) < 1) by norm_num)]
    simp only [estrella.loopT]
    split
    · rfl
    · rfl

theorem loopA2K_all (exit : ℕ → Bool) (calls : ℕ → ℕ) (k : ℝ) :
    ∀ (fuel j : ℕ) (acc : List ℝ), (∀ u ∈ acc, u = k) →
      ∀ u ∈ estrella.loopA2K exit calls fuel j k acc, u = k := by
  intro fuel
  induction fuel with
  | zero => intro j acc hacc; simpa [estrella.loopA2K] using hacc
  | succ fuel ih =>
    intro j acc hacc u hu
    have hext : ∀ v ∈ acc ++ List.replicate (calls j) k, v = k := by
      intro v hv
      rcases List.mem_append.mp hv with hv | hv
      · exact hacc v hv
      · exact List.eq_of_mem_replicate hv
    simp only [estrella.loopA2K] at hu
    split at hu
    · exact hext u hu
    · exact ih (j + 1) _ hext u hu

theorem loopTK_all (exitc : ℕ → Bool) (k : ℝ) :
    ∀ (fuel j : ℕ) (acc : List ℝ), (∀ u ∈ acc, u = k) →
      ∀ u ∈ estrella.loopTK exitc fuel j k acc, u = k := by
  intro fuel
  induction fuel with
  | zero => intro j acc hacc; simpa [estrella.loopTK] using hacc
  | succ fuel ih =>
    intro j acc hacc u hu
    have hext : ∀ v ∈ acc ++ [k], v = k := by
      intro v hv
      rcases List.mem_append.mp hv with hv | hv
      · exact hacc v hv
      · simpa using hv
    simp only [estrella.loopTK] at hu
    split at hu
    · exact hext u hu
    · exact ih (j + 1) _ hext u hu

/-- C2: across one `star` invocation the polytropic constant is computed
exactly once, as `cte_k(P_cal, T_cal) = P_cal / T_cal**2.5` on the pressure
and temperature of the layer being evaluated at the moment the convective
criterion first triggers (the first step of regime A.1.3 satisfying the exit
rule), and every subsequent use of the constant — Phase A's convective
continuation and every Phase B run (direction detection, each bracketing
iteration, each fine-sweep trial, the final run) — receives exactly that
value. -/
theorem c2_kprima_computed_once (bodyA13 : ℕ → estrella.A13Vals)
    (fuelA13 : ℕ) (a2exit : ℕ → Bool) (a2calls : ℕ → ℕ) (fuelA2 : ℕ)
    (brkExit : ℕ → Bool) (fuelBrk : ℕ) (sweepN : ℕ) (k : ℝ) (uses : List ℝ)
    (h : estrella.starKUses bodyA13 fuelA13 a2exit a2calls fuelA2 brkExit
      fuelBrk sweepN = some (k, uses)) :
    (∃ n, estrella.loopA13 bodyA13 fuelA13 0 0 =
        some (n, (bodyA13 n).P_cal, (bodyA13 n).T_cal) ∧
      k = politropo.cte_k ((bodyA13 n).P_cal : ℝ) ((bodyA13 n).T_cal : ℝ) ∧
      estrella.specA13Exit bodyA13 n ∧
      ∀ m < n, ¬ estrella.specA13Exit bodyA13 m) ∧
    ∀ u ∈ uses, u = k := by
  rcases hres : estrella.loopA13 bodyA13 fuelA13 0 0 with _ | ⟨n, P, T⟩
  · rw [estrella.starKUses, hres] at h
    cases h
  · rw [estrella.starKUses, hres] at h
    have h0 : estrella.a13_prev bodyA13 0 = 0 := rfl
    have hspec := loopA13_spec bodyA13 fuelA13 0 n P T (Or.inl h0)
      (by rw [h0]; exact hres)
    obtain ⟨-, hP, hT, hexit, hmin⟩ := hspec
    obtain ⟨hk, huses⟩ : politropo.cte_k (P : ℝ) (T : ℝ) = k ∧
        (estrella.loopA2K a2exit a2calls fuelA2 0
            (politropo.cte_k (P : ℝ) (T : ℝ)) []
          ++ [politropo.cte_k (P : ℝ) (T : ℝ)]
          ++ estrella.loopTK brkExit fuelBrk 0
            (politropo.cte_k (P : ℝ) (T : ℝ)) []
          ++ List.replicate sweepN (politropo.cte_k (P : ℝ) (T : ℝ))
          ++ [politropo.cte_k (P : ℝ) (T : ℝ)]) = uses := by
      have := h
      simp only [Option.some.injEq, Prod.mk.injEq] at this
      exact this
    constructor
    · refine ⟨n, ?_, ?_, hexit, fun m hm => hmin m (Nat.zero_le m) hm⟩
      · rw [hP, hT]
      · rw [← hk, hP, hT]
    · intro u hu
      rw [← huses] at hu
      rw [← hk]
      have hA2 := loopA2K_all a2exit a2calls (politropo.cte_k (P : ℝ) (T : ℝ))
        fuelA2 0 [] (by simp)
      have hTK := loopTK_all brkExit (politropo.cte_k (P : ℝ) (T : ℝ))
        fuelBrk 0 [] (by simp)
      simp only [List.append_assoc, List.mem_append] at hu
      rcases hu with hu | hu | hu | hu | hu
      · exact hA2 u hu
      · simpa using hu
      · exact hTK u hu
      · exact List.eq_of_mem_replicate hu
      · simpa using hu

/-- C2 witness: on a concrete run that exits regime A.1.3 at its first step
with `P_cal = 2`, `T_cal = 1`, the constant is `cte_k 2 1` and all seven
recorded uses (two Phase A.2 pressure calls, the direction-detection call,
one bracketing iteration, two sweep trials, the final run) equal it. -/
theorem c2_kprima_computed_once_witness :
    (estrella.starKUses c2Body 1 (fun _ => true) (fun _ => 2) 1
        (fun _ => true) 1 2 =
      some (politropo.cte_k ((2 : ℚ) : ℝ) ((1 : ℚ) : ℝ),
        List.replicate 7 (politropo.cte_k ((2 : ℚ) : ℝ) ((1 : ℚ) : ℝ)))) ∧
    ∀ u ∈ List.replicate 7 (politropo.cte_k ((2 : ℚ) : ℝ) ((1 : ℚ) : ℝ)),
      u = politropo.cte_k ((2 : ℚ) : ℝ) ((1 : ℚ) : ℝ) := by
  have hl : estrella.loopA13 c2Body 1 0 0 = some (0, 2, 1) := by
    norm_num [estrella.loopA13, estrella.a13_n1, c2Body, transporte.n_mas_1]
  have h : estrella.starKUses c2Body 1 (fun _ => true) (fun _ => 2) 1
      (fun _ => true) 1 2 =
      some (politropo.cte_k ((2 : ℚ) : ℝ) ((1 : ℚ) : ℝ),
        List.replicate 7 (politropo.cte_k ((2 : ℚ) : ℝ) ((1 : ℚ) : ℝ))) := by
    rw [estrella.starKUses, hl]
    simp [estrella.loopA2K, estrella.loopTK, List.replicate]
  exact ⟨h, (c2_kprima_computed_once c2Body 1 (fun _ => true) (fun _ => 2) 1
    (fun _ => true) 1 2 _ _ h).2⟩

theorem c4_tables_at_three_halves :
    energia.E1nu_pp (3/2) = ((10 : ℝ) ^ (-5.02 : ℝ), (4 : ℚ)) ∧
    energia.E1nu_CN (3/2) = ((10 : ℝ) ^ (-22.2 : ℝ), (20 : ℚ)) := by
  constructor
  · unfold energia.E1nu_pp
    norm_num
  · unfold energia.E1nu_CN
    norm_num

theorem c4_rates_tie :
    energia.E_pp (3/2) (3/4) = energia.E_CN (3/2) (3/4) c4Y := by
  have htp := c4_tables_at_three_halves.1
  have htc := c4_tables_at_three_halves.2
  rw [energia.E_pp, energia.E_CN, htp, htc]
  have hZ : (1 : ℝ) - 3/4 - c4Y =
      (9/4) * (10 : ℝ) ^ (17.18 : ℝ) / (15 : ℝ) ^ (16 : ℝ) := by
    rw [c4Y]; ring
  rw [hZ]
  have h15 : (10 * (3/2) : ℝ) = 15 := by norm_num
  rw [h15]
  have hcast4 : (((4 : ℚ) : ℝ)) = (4 : ℝ) := by norm_num
  have hcast20 : (((20 : ℚ) : ℝ)) = (20 : ℝ) := by norm_num
  rw [hcast4, hcast20]
  have h20 : (15 : ℝ) ^ (20 : ℝ) = (15 : ℝ) ^ (16 : ℝ) * (15 : ℝ) ^ (4 : ℝ) := by
    rw [← Real.rpow_add (by norm_num : (0 : ℝ) < 15)]
    norm_num
  rw [h20]
  have h10 : (10 : ℝ) ^ (-22.2 : ℝ) * (10 : ℝ) ^ (17.18 : ℝ) =
      (10 : ℝ) ^ (-5.02 : ℝ) := by
    rw [← Real.rpow_add (by norm_num : (0 : ℝ) < 10)]
    norm_num
  have h16ne : ((15 : ℝ) ^ (16 : ℝ)) ≠ 0 :=
    (Real.rpow_pos_of_pos (by norm_num) _).ne'
  rw [← h10]
  field_simp
  ring

/-- C4 counterexample: at `T = 1.5`, `X = 0.75` and the helium fraction
`c4Y` the two evaluated rates tie exactly at a nonzero value, so `ciclo`
returns the NONE label while the rates are not `0` — refuting the clause
"whenever NONE is returned both evaluated rates are 0". -/
theorem c4_tie_nonzero_counterexample :
    (energia.ciclo (3/2) (3/4) c4Y).1 = CycleLabel.NONE ∧
    energia.E_pp (3/2) (3/4) ≠ 0 := by
  have hE := c4_rates_tie
  constructor
  · unfold energia.ciclo
    rw [if_neg (by rw [hE]; exact lt_irrefl _),
      if_neg (by rw [hE]; exact lt_irrefl _)]
  · have htp := c4_tables_at_three_halves.1
    rw [energia.E_pp, htp]
    have : (0 : ℝ) < (10 : ℝ) ^ (-5.02 : ℝ) * (3/4) ^ 2
        * (10 * (3/2)) ^ (((4 : ℚ) : ℝ)) := by
      apply mul_pos
      apply mul_pos
      · exact Real.rpow_pos_of_pos (by norm_num) _
      · norm_num
      · exact Real.rpow_pos_of_pos (by norm_num) _
    exact this.ne'

/-- C4 amended: the selection is total — exactly one of the labels PP, CN,
NONE is returned together with a coefficient pair; the returned cycle's
evaluated rate is `≥` the other's; and whenever NONE is returned the two
evaluated rates are exactly equal (both `0` when the temperature lies
outside both tables, but a nonzero exact tie also yields NONE) and the
coefficient pair is `(0, 0)`. -/
theorem c4_cycle_selection_amended (T X Y : ℝ) :
    ((energia.ciclo T X Y).1 = CycleLabel.PP ∨
      (energia.ciclo T X Y).1 = CycleLabel.CN ∨
      (energia.ciclo T X Y).1 = CycleLabel.NONE) ∧
    ((energia.ciclo T X Y).1 = CycleLabel.PP →
      energia.E_CN T X Y ≤ energia.E_pp T X ∧
      (energia.ciclo T X Y).2 = energia.E1nu_pp T) ∧
    ((energia.ciclo T X Y).1 = CycleLabel.CN →
      energia.E_pp T X ≤ energia.E_CN T X Y ∧
      (energia.ciclo T X Y).2 = energia.E1nu_CN T) ∧
    ((energia.ciclo T X Y).1 = CycleLabel.NONE →
      energia.E_pp T X = energia.E_CN T X Y ∧
      (energia.ciclo T X Y).2 = (0, 0)) := by
  unfold energia.ciclo
  split_ifs with h1 h2
  · exact ⟨Or.inl rfl, fun _ => ⟨le_of_lt h1, rfl⟩,
      fun hc => by simp at hc, fun hc => by simp at hc⟩
  · exact ⟨Or.inr (Or.inl rfl), fun hc => by simp at hc,
      fun _ => ⟨le_of_lt h2, rfl⟩, fun hc => by simp at hc⟩
  · exact ⟨Or.inr (Or.inr rfl), fun hc => by simp at hc,
      fun hc => by simp at hc,
      fun _ => ⟨le_antisymm (not_lt.mp h1) (not_lt.mp h2), rfl⟩⟩

theorem E1nu_pp_out_of_range (T : ℝ) (h : ¬ (0.4 < T ∧ T ≤ 2.4)) :
    energia.E1nu_pp T = (0, 0) := by
  unfold energia.E1nu_pp
  rw [if_neg fun hc => h ⟨hc.1, hc.2.trans (by norm_num)⟩,
    if_neg fun hc => h ⟨lt_trans (by norm_num) hc.1, hc.2.trans (by norm_num)⟩,
    if_neg fun hc => h ⟨lt_trans (by norm_num) hc.1, hc.2.trans (by norm_num)⟩,
    if_neg fun hc => h ⟨lt_trans (by norm_num) hc.1, hc.2.trans (by norm_num)⟩,
    if_neg fun hc => h ⟨lt_trans (by norm_num) hc.1, hc.2⟩]

theorem E1nu_CN_out_of_range (T : ℝ) (h : ¬ (1.2 < T ∧ T ≤ 5.0)) :
    energia.E1nu_CN T = (0, 0) := by
  unfold energia.E1nu_CN
  rw [if_neg fun hc => h ⟨hc.1, hc.2.trans (by norm_num)⟩,
    if_neg fun hc => h ⟨lt_trans (by norm_num) hc.1, hc.2.trans (by norm_num)⟩,
    if_neg fun hc => h ⟨lt_trans (by norm_num) hc.1, hc.2.trans (by norm_num)⟩,
    if_neg fun hc => h ⟨lt_trans (by norm_num) hc.1, hc.2.trans (by norm_num)⟩,
    if_neg fun hc => h ⟨lt_trans (by norm_num) hc.1, hc.2⟩]

theorem ciclo_none_of_zero_tables (T X Y : ℝ)
    (hp : energia.E1nu_pp T = (0, 0)) (hc : energia.E1nu_CN T = (0, 0)) :
    energia.ciclo T X Y = (CycleLabel.NONE, 0, 0) := by
  have hpp : energia.E_pp T X = 0 := by
    rw [energia.E_pp, hp]; simp
  have hcn : energia.E_CN T X Y = 0 := by
    rw [energia.E_CN, hc]; simp
  rw [energia.ciclo, hpp, hcn, if_neg (lt_irrefl 0), if_neg (lt_irrefl 0)]

/-- C9: the luminosity-derivative evaluation is safe only away from zero
temperature.  For every `T > 0` outside all tabulated sub-ranges of both
cycles (PP table `(0.4, 2.4]`, CN table `(1.2, 5.0]`) with `L_cte` false,
`luminosidad` returns derivative `0` with the NONE label; but at `T = 0`
with `L_cte` false the dominant cycle has `nu = 0` and the expression
`T**(nu-2)` evaluates `0.0 ** (-2.0)`, raising `ZeroDivisionError` instead
of returning `0`. -/
theorem c9_luminosidad_zero_temperature (r P mu X Y T : ℝ) (hT : 0 < T)
    (hpp : ¬ (0.4 < T ∧ T ≤ 2.4)) (hcn : ¬ (1.2 < T ∧ T ≤ 5.0)) :
    primera_derivada.luminosidad r P T mu X Y false =
      Except.ok (0, CycleLabel.NONE) ∧
    ∀ r' P' mu' X' Y' : ℝ,
      primera_derivada.luminosidad r' P' 0 mu' X' Y' false =
        Except.error PyErr.zeroDiv := by
  constructor
  · have hc : energia.ciclo T X Y = (CycleLabel.NONE, 0, 0) :=
      ciclo_none_of_zero_tables T X Y (E1nu_pp_out_of_range T hpp)
        (E1nu_CN_out_of_range T hcn)
    rw [primera_derivada.luminosidad]
    simp [Bool.false_eq_true, hc, primera_derivada.pyPow, hT.ne', Except.map]
  · intro r' P' mu' X' Y'
    have hc : energia.ciclo 0 X' Y' = (CycleLabel.NONE, 0, 0) := by
      apply ciclo_none_of_zero_tables
      · exact E1nu_pp_out_of_range 0 (by norm_num)
      · exact E1nu_CN_out_of_range 0 (by norm_num)
    rw [primera_derivada.luminosidad]
    simp only [Bool.false_eq_true, if_false, hc]
    rw [primera_derivada.pyPow,
      if_pos (show (0 : ℝ) = 0 ∧ ((0 : ℚ) - 2) < 0 by norm_num)]
    rfl

/-- C9 witness: the safe case at `T = 6` (outside both tables) and the
failing case at `T = 0`, with the other arguments `1`. -/
theorem c9_luminosidad_zero_temperature_witness :
    ((0 : ℝ) < 6 ∧ ¬ ((0.4 : ℝ) < 6 ∧ (6 : ℝ) ≤ 2.4) ∧
      ¬ ((1.2 : ℝ) < 6 ∧ (6 : ℝ) ≤ 5.0)) ∧
    primera_derivada.luminosidad 1 1 6 1 1 1 false =
      Except.ok (0, CycleLabel.NONE) ∧
    primera_derivada.luminosidad 1 1 0 1 1 1 false =
      Except.error PyErr.zeroDiv := by
  have h := c9_luminosidad_zero_temperature 1 1 1 1 1 6 (by norm_num)
    (by norm_num) (by norm_num)
  exact ⟨⟨by norm_num, by norm_num, by norm_num⟩, h.1, h.2 1 1 1 1 1⟩

theorem pyMin_le_of_mem : ∀ (l : List ℝ) (x : ℝ), x ∈ l → estrella.pyMin l ≤ x
  | [], x, hx => absurd hx (List.not_mem_nil x)
  | [y], x, hx => by
    rcases List.mem_singleton.mp hx with rfl
    exact le_refl x
  | y :: z :: rest, x, hx => by
    rcases List.mem_cons.mp hx with rfl | hx
    · exact min_le_left _ _
    · exact le_trans (min_le_right _ _) (pyMin_le_of_mem (z :: rest) x hx)

theorem pyMin_mem : ∀ (l : List ℝ), l ≠ [] → estrella.pyMin l ∈ l
  | [], h => absurd rfl h
  | [y], _ => List.mem_singleton.mpr rfl
  | y :: z :: rest, _ => by
    show min y (estrella.pyMin (z :: rest)) ∈ y :: z :: rest
    rcases le_total y (estrella.pyMin (z :: rest)) with h | h
    · rw [min_eq_left h]
      exact List.mem_cons_self _ _
    · rw [min_eq_right h]
      exact List.mem_cons_of_mem _ (pyMin_mem (z :: rest) (by simp))

theorem pyMin_eq_of_mem_of_le (l : List ℝ) (a : ℝ) (ha : a ∈ l)
    (hlb : ∀ x ∈ l, a ≤ x) : estrella.pyMin l = a :=
  le_antisymm (pyMin_le_of_mem l a ha)
    (hlb _ (pyMin_mem l (List.ne_nil_of_mem ha)))

theorem c1_err_const (t : ℚ) : estrella.E_rT_of c1FA (c1FB t) = 1/2 := by
  have e1 : c1FB t 1 = 1/2 := if_pos rfl
  have e2 : c1FB t 2 = 1 := if_neg (by decide)
  have e3 : c1FB t 3 = 1 := if_neg (by decide)
  have e4 : c1FB t 4 = 1 := if_neg (by decide)
  unfold estrella.E_rT_of
  rw [show c1FA 1 = (1 : ℝ) from rfl, show c1FA 2 = (1 : ℝ) from rfl,
    show c1FA 3 = (1 : ℝ) from rfl, show c1FA 4 = (1 : ℝ) from rfl,
    e1, e2, e3, e4]
  rw [show ((1 : ℝ) - 1/2)/1 = 1/2 by norm_num,
    show ((1 : ℝ) - 1)/1 = 0 by norm_num,
    abs_of_nonneg (show (0 : ℝ) ≤ 1/2 by norm_num), abs_zero]
  rw [show ((1/2 : ℝ))^2 + 0^2 + 0^2 + 0^2 = (1/2)*(1/2) by ring,
    Real.sqrt_mul_self (show (0 : ℝ) ≤ 1/2 by norm_num)]

theorem c1_trials_length : (estrella.sweepTrials (3/2) (31/20)).length = 500 := by
  unfold estrella.sweepTrials estrella.arangeQ
  rw [show ((31/20 : ℚ) - 3/2) / (1/10000) = 500 by norm_num]
  rw [List.length_map, List.length_range]
  decide

theorem c1_trials_pos : ∀ t ∈ estrella.sweepTrials (3/2) (31/20), 0 < t := by
  intro t ht
  unfold estrella.sweepTrials estrella.arangeQ at ht
  obtain ⟨k, -, rfl⟩ := List.mem_map.mp ht
  positivity

theorem c1_sweepErr_filled (j : ℕ) (hj : j < 500) :
    estrella.sweepErr c1FA c1FB (3/2) (31/20) j = 1/2 := by
  unfold estrella.sweepErr
  rw [if_pos (by rw [c1_trials_length]; exact hj)]
  exact c1_err_const _

theorem c1_sweepErr_last : estrella.sweepErr c1FA c1FB (3/2) (31/20) 500 = 0 := by
  unfold estrella.sweepErr
  rw [if_neg (by rw [c1_trials_length]; exact lt_irrefl 500)]

theorem c1_sweepErr_nonneg (j : ℕ) :
    0 ≤ estrella.sweepErr c1FA c1FB (3/2) (31/20) j := by
  unfold estrella.sweepErr
  split
  · exact Real.sqrt_nonneg _
  · exact le_refl 0

theorem c1_sweepMin_zero : estrella.sweepMin c1FA c1FB (3/2) (31/20) = 0 := by
  unfold estrella.sweepMin
  apply pyMin_eq_of_mem_of_le
  · exact List.mem_map.mpr ⟨500, List.mem_range.mpr (by norm_num),
      c1_sweepErr_last⟩
  · intro x hx
    obtain ⟨j, -, rfl⟩ := List.mem_map.mp hx
    exact c1_sweepErr_nonneg j

theorem c1_sweepTcDef_zero :
    estrella.sweepTcDef c1FA c1FB (3/2) (31/20) = some 0 := by
  unfold estrella.sweepTcDef
  have hfilter : (List.range 501).filter
      (fun j => decide (estrella.sweepErr c1FA c1FB (3/2) (31/20) j
        = estrella.sweepMin c1FA c1FB (3/2) (31/20))) = [500] := by
    rw [List.range_succ 500, List.filter_append]
    have h1 : (List.range 500).filter
        (fun j => decide (estrella.sweepErr c1FA c1FB (3/2) (31/20) j
          = estrella.sweepMin c1FA c1FB (3/2) (31/20))) = [] := by
      apply List.filter_eq_nil_iff.mpr
      intro j hj
      rw [c1_sweepMin_zero, c1_sweepErr_filled j (List.mem_range.mp hj)]
      simp
    have h2 : ([500] : List ℕ).filter
        (fun j => decide (estrella.sweepErr c1FA c1FB (3/2) (31/20) j
          = estrella.sweepMin c1FA c1FB (3/2) (31/20))) = [500] := by
      have : (decide (estrella.sweepErr c1FA c1FB (3/2) (31/20) 500
          = estrella.sweepMin c1FA c1FB (3/2) (31/20))) = true :=
        decide_eq_true (by rw [c1_sweepMin_zero, c1_sweepErr_last])
      simp [List.filter, this]
    rw [h1, h2, List.nil_append]
  rw [hfilter]
  show some (estrella.sweepTprueba (3/2) (31/20) 500) = some 0
  unfold estrella.sweepTprueba
  rw [List.getD_eq_default _ _ (by rw [c1_trials_length])]

/-- C1: in exact arithmetic the fine-minimization stage does not return the
minimum of the computed trial errors.  On the failing input — a bracket of
width `0.05` (`[1.5, 1.55]`), Phase A boundary values all `1` and Phase B
boundary values with pressure component `1/2` for every trial —
`np.arange(T_c_init, T_c_fin, 1e-4)` yields exactly 500 trials (not 501),
every computed combined error is `1/2 > 0`, yet `min` runs over the whole
501-slot zero-initialized buffer and returns `0` from the untouched slot,
and the returned fitted central temperature is the placeholder `0.0`, which
is no trial (all trials are positive). -/
theorem c1_fine_sweep_returns_placeholder :
    (estrella.sweepTrials (3/2) (31/20)).length = 500 ∧
    (∀ t ∈ estrella.sweepTrials (3/2) (31/20),
      0 < t ∧ estrella.E_rT_of c1FA (c1FB t) = 1/2) ∧
    estrella.fineSweep c1FA c1FB (3/2) (31/20) = (0, some 0) := by
  refine ⟨c1_trials_length, fun t ht => ⟨c1_trials_pos t ht, c1_err_const t⟩, ?_⟩
  unfold estrella.fineSweep
  rw [c1_sweepMin_zero, c1_sweepTcDef_zero]
